import Mathlib

set_option maxRecDepth 10000

/-!
Verification development for the SSH-MCP network-switch management server.

The TypeScript sources are embedded shallowly: pure text-processing
functions become Lean functions on `String`/`List Char`; tool handlers
that talk to a device or the network become functions of an explicit
environment record (the oracle of their external sub-call results)
returning the tool result together with a trace of the externally
visible actions they performed.  Machine integers do not occur in the
verified fragment.

Layout: all definitions first, then the lemmas and claim theorems.
-/

namespace SSHMCP

/-! ## String utilities -/

/-- Lowercasing of a string, character by character, mirroring
JavaScript `String.prototype.toLowerCase` on the ASCII range used by the
classifier keywords. -/
def lowerStr (s : String) : String :=
  String.mk (s.data.map Char.toLower)

/-- JavaScript `String.prototype.includes`: `pat` occurs contiguously in
`s`. -/
def strContains (s pat : String) : Prop :=
  pat.data <:+: s.data

instance (s pat : String) : Decidable (strContains s pat) :=
  inferInstanceAs (Decidable (pat.data <:+: s.data))

/-- Boolean form of `strContains`, used where the source branches on a
containment test. -/
def strContainsB (s pat : String) : Bool :=
  decide (strContains s pat)

/-- JavaScript `String.prototype.startsWith`. -/
def strStartsWith (s pat : String) : Bool :=
  decide (pat.data <+: s.data)

/-- JavaScript `String.prototype.endsWith`. -/
def strEndsWith (s pat : String) : Bool :=
  decide (pat.data <:+ s.data)

/-- Concatenation of a list of strings, the shallow form of the
`results += ...` accumulation pattern the tool handlers use. -/
def concatAll (l : List String) : String :=
  l.foldr (· ++ ·) ""

/-- `Array.prototype.join('\n')` on a list of lines. -/
def joinLines : List String → String
  | [] => ""
  | [e] => e
  | e :: rest => e ++ "\n" ++ joinLines rest

/-- `errors.map(e => ...)` prefixed with a dash and joined on newlines,
from the validation-failure branch of `console_to_ssh_transition`. -/
def bulletList (errors : List String) : String :=
  joinLines (errors.map (fun e => "- " ++ e))

/-- JavaScript `split` on a one-character separator, written directly on
character lists so the kernel can evaluate it on concrete inputs. -/
def splitOnChar (sep : Char) (l : List Char) : List (List Char) :=
  l.foldr
    (fun c acc =>
      match acc with
      | [] => [[c]]
      | cur :: rest => if c = sep then [] :: cur :: rest else (c :: cur) :: rest)
    [[]]

/-- Decimal value of a digit run. -/
def natOfDigits (l : List Char) : Nat :=
  l.foldl (fun n c => n * 10 + (c.toNat - 48)) 0

/-! ## Device classifier (`network-switch-tools.ts`) -/

/-- The device-type vocabulary of `network-switch-tools.ts`
(`NetworkDevice['type']`). -/
inductive DeviceType where
  | ciscoIos
  | ciscoIosXe
  | arubaSwitch
  | generic
deriving DecidableEq, Repr

/-- `detectDeviceType` from `network-switch-tools.ts`: lowercase the
version output, then test the keyword list in priority order. -/
def detectDeviceType (versionOutput : String) : DeviceType :=
  let output := lowerStr versionOutput
  if strContainsB output "cisco ios xe" then
    DeviceType.ciscoIosXe
  else if strContainsB output "cisco ios" then
    DeviceType.ciscoIos
  else if strContainsB output "aruba" || strContainsB output "procurve" then
    DeviceType.arubaSwitch
  else
    DeviceType.generic

/-- The string tag of a device type, as stored in
`NetworkDevice['type']`. -/
def deviceTypeName : DeviceType → String
  | DeviceType.ciscoIos => "cisco-ios"
  | DeviceType.ciscoIosXe => "cisco-ios-xe"
  | DeviceType.arubaSwitch => "aruba-switch"
  | DeviceType.generic => "generic"

/-! ## Tool results and the field validator -/

/-- The structured result every MCP tool handler returns: a plain-text
narrative plus the boolean `isError` flag (absent in the source is
modelled as `false`). -/
structure ToolResult where
  isError : Bool
  text : String
deriving Repr, DecidableEq

/-- Dotted-quad shape test used by the field validator: four
dot-separated runs of digits, each between 0 and 255. -/
def isDottedQuad (s : String) : Bool :=
  let parts := splitOnChar '.' s.data
  parts.length == 4 &&
    parts.all (fun p =>
      !p.isEmpty && p.all Char.isDigit && decide (natOfDigits p ≤ 255))

/-- The validated caller-supplied field set (`NetworkConfig` of
`ssh-setup-tools.ts`). -/
structure NetworkConfig where
  hostname : String
  ip_address : String
  subnet_mask : String
  gateway : String
  username : String
  password : String
  enable_password : String
deriving Repr, DecidableEq

/-- Result shape of the field validator: `{valid, errors[]}`. -/
structure ValidationResult where
  valid : Bool
  errors : List String
deriving Repr, DecidableEq

/-- Modelled from the spec: `validateNetworkConfig` lives in
`ssh-setup-tools.ts`, which is not among the sources; section 4.5 of the
spec describes it as independent field-level checks — dotted-quad shape
for IP/mask/gateway, minimum length 3 for hostname/username and 8 for
password — with all failures collected rather than short-circuiting, and
`valid` true exactly when no check failed. -/
def validateNetworkConfig (c : NetworkConfig) : ValidationResult :=
  let errs : List String :=
    (if isDottedQuad c.ip_address then [] else ["Invalid ip_address format"]) ++
    (if isDottedQuad c.subnet_mask then [] else ["Invalid subnet_mask format"]) ++
    (if isDottedQuad c.gateway then [] else ["Invalid gateway format"]) ++
    (if c.hostname.length ≥ 3 then [] else ["Hostname must be at least 3 characters"]) ++
    (if c.username.length ≥ 3 then [] else ["Username must be at least 3 characters"]) ++
    (if c.password.length ≥ 8 then [] else ["Password must be at least 8 characters"])
  { valid := errs.isEmpty, errors := errs }

/-! ## The console-to-SSH transition workflow

Shallow embedding of `console_to_ssh_transition` from
`console-transition-tools.ts`.  The sub-tools it awaits
(`serial_connect`, `serial_discover_device`, `serial_enter_enable`,
`switch_verify_ssh_status`, `switch_apply_ssh_config`,
`switch_test_ssh_connection`, `serial_disconnect`) are external calls
whose results are supplied by an environment record; the list of stages
the handler actually executed is returned alongside the tool result. -/

/-- The device-interaction stages of the transition workflow, in source
order (steps 1 through 8 of the handler). -/
inductive Stage where
  | connect
  | discover
  | enterEnable
  | verifyStatus
  | applyConfig
  | waitSsh
  | testSsh
  | disconnect
deriving Repr, DecidableEq

/-- The parameter object of `console_to_ssh_transition`; optional JSON
fields are `Option`s, with the source defaults applied inside the
handler. -/
structure TransParams where
  port : String
  hostname : String
  ip_address : String
  subnet_mask : Option String
  gateway : String
  username : String
  password : String
  enable_password : Option String
  deviceType : Option String
  securityLevel : Option String
  baudRate : Option Nat
  confirmTransition : Bool
deriving Repr

/-- Results of the awaited sub-tool calls, one per stage that produces
one.  (The result of the final `serial_disconnect` is ignored by the
source and is carried only for fidelity.) -/
structure TransEnv where
  connectResult : ToolResult
  discoverResult : ToolResult
  enableResult : ToolResult
  statusResult : ToolResult
  applyResult : ToolResult
  testResult : ToolResult
  disconnectResult : ToolResult
deriving Repr

/-- The `config` object the handler validates: `enable_password` falls
back to `password`, `subnet_mask` defaults to `255.255.255.0`. -/
def transitionConfig (p : TransParams) : NetworkConfig :=
  { hostname := p.hostname
    ip_address := p.ip_address
    subnet_mask := p.subnet_mask.getD "255.255.255.0"
    gateway := p.gateway
    username := p.username
    password := p.password
    enable_password := p.enable_password.getD p.password }

/-- The preview text returned when `confirmTransition` is absent or
false. -/
def transitionPreview (p : TransParams) : String :=
  "Console-to-SSH Transition Workflow\n\nThis workflow will:\n1. Connect to switch via serial port: "
    ++ p.port
    ++ "\n2. Discover the device type (or use: "
    ++ p.deviceType.getD "auto-detect"
    ++ ")\n3. Check current SSH status\n4. Configure SSH with these settings:\n   - Hostname: "
    ++ p.hostname
    ++ "\n   - IP Address: "
    ++ p.ip_address ++ "/" ++ p.subnet_mask.getD "255.255.255.0"
    ++ "\n   - Gateway: "
    ++ p.gateway
    ++ "\n   - SSH Username: "
    ++ p.username
    ++ "\n   - Security Level: "
    ++ p.securityLevel.getD "basic"
    ++ "\n5. Test SSH connectivity\n6. Provide transition summary\n\nWARNING: This will modify switch configuration!\n\nTo proceed, set confirmTransition=true"

/-- `detectedDeviceType` of step 2: the explicit parameter wins;
otherwise the discovery text is scanned (a failed discovery leaves the
JavaScript variable `undefined`, modelled as `none`). -/
def transitionDetectedDeviceType (p : TransParams) (env : TransEnv) : Option String :=
  match p.deviceType with
  | some d => some d
  | none =>
    if env.discoverResult.isError then none
    else if strContainsB env.discoverResult.text "cisco-ios-xe" then some "cisco"
    else if strContainsB env.discoverResult.text "cisco-ios" then some "cisco"
    else if strContainsB env.discoverResult.text "aruba" then some "aruba"
    else some "cisco"

/-- Step 3 warns exactly when `serial_enter_enable` errored and its text
does not contain `Already in`. -/
def transitionEnableWarn (env : TransEnv) : Bool :=
  env.enableResult.isError && !(strContainsB env.enableResult.text "Already in")

/-- The success half of the final summary. -/
def transitionSuccessSummary (p : TransParams) : String :=
  "🎉 SUCCESS! SSH is now available.\n\nConnection Details:\n  Host: "
    ++ p.ip_address
    ++ "\n  Port: 22\n  Username: "
    ++ p.username
    ++ "\n\nConnect using: ssh " ++ p.username ++ "@" ++ p.ip_address
    ++ "\n\nYou can now:\n1. Disconnect the USB-to-Serial console cable\n2. Use SSH for all future management\n3. Store these credentials securely\n"

/-- The partial-success half of the final summary. -/
def transitionPartialSummary (p : TransParams) : String :=
  "⚠️  PARTIAL SUCCESS\n\nSSH configuration was applied, but the connection test failed.\n\nTroubleshooting:\n1. Wait a few more minutes and try: ssh "
    ++ p.username ++ "@" ++ p.ip_address
    ++ "\n2. Verify network connectivity: ping " ++ p.ip_address
    ++ "\n3. Check firewall rules allow SSH (port 22)\n4. Reconnect via console to verify configuration\n"

/-- The final-summary block of the report: `sshWorking` is exactly
"the SSH connection test did not error", and it alone selects between
the success and the partial-success summary. -/
def transitionSummarySection (p : TransParams) (env : TransEnv) : String :=
  if !env.testResult.isError then transitionSuccessSummary p
  else transitionPartialSummary p

/-- The pieces accumulated into `results` by the handler (one list entry
per `results +=` in the source, in order), for a run whose serial
connect succeeded. -/
def transitionSections (p : TransParams) (env : TransEnv) : List String :=
  [ "=== Console-to-SSH Transition Workflow ===\n\n",
    "📡 Step 1: Connecting via serial console...\n",
    "✅ Connected to " ++ p.port ++ "\n\n",
    "🔍 Step 2: Discovering device type...\n",
    "✅ Detected device type: "
      ++ ((transitionDetectedDeviceType p env).getD "undefined") ++ "\n\n",
    "🔑 Step 3: Entering privileged mode...\n",
    (if transitionEnableWarn env then
      "⚠️  Warning: " ++ env.enableResult.text ++ "\n" ++ "Continuing anyway...\n\n"
    else "✅ In privileged mode\n\n"),
    "📋 Step 4: Checking current SSH configuration...\n",
    env.statusResult.text ++ "\n\n",
    "⚙️  Step 5: Applying SSH configuration...\n",
    (if env.applyResult.isError then
      "⚠️  Configuration had issues: " ++ env.applyResult.text ++ "\n\n"
    else "✅ SSH configuration applied\n\n"),
    "⏳ Step 6: Waiting for SSH service to initialize (30 seconds)...\n",
    "✅ Wait complete\n\n",
    "🔌 Step 7: Testing SSH connection...\n",
    (if env.testResult.isError then
      "⚠️  SSH test failed: " ++ env.testResult.text ++ "\n"
        ++ "The switch may need more time, or network configuration may need adjustment.\n\n"
    else "✅ SSH connection successful!\n\n"),
    "🔌 Step 8: Disconnecting serial console...\n",
    "✅ Serial disconnected\n\n",
    "=== Transition Summary ===\n\n",
    transitionSummarySection p env ]

/-- The full report of a run whose serial connect succeeded. -/
def transitionReport (p : TransParams) (env : TransEnv) : String :=
  concatAll (transitionSections p env)

/-- The eight stages in the order the handler executes them. -/
def fullStageOrder : List Stage :=
  [Stage.connect, Stage.discover, Stage.enterEnable, Stage.verifyStatus,
   Stage.applyConfig, Stage.waitSsh, Stage.testSsh, Stage.disconnect]

/-- `console_to_ssh_transition`: validation gate, confirmation gate,
then the eight-stage workflow; a connect failure throws into the
handler's catch, every other sub-call failure is folded into the
report. -/
def console_to_ssh_transition (p : TransParams) (env : TransEnv) :
    ToolResult × List Stage :=
  let validation := validateNetworkConfig (transitionConfig p)
  if !validation.valid then
    ({ isError := true
       text := "Configuration validation failed:\n" ++ bulletList validation.errors },
     [])
  else if !p.confirmTransition then
    ({ isError := false, text := transitionPreview p }, [])
  else if env.connectResult.isError then
    ({ isError := true
       text := "Transition workflow error: Serial connection failed: "
         ++ env.connectResult.text },
     [Stage.connect])
  else
    ({ isError := false, text := transitionReport p env }, fullStageOrder)

/-- The step-header fragments a full-run report must contain, one per
stage of the workflow, plus the summary marker. -/
def transitionStepHeaders : List String :=
  [ "Step 1: Connecting via serial console",
    "Step 2: Discovering device type",
    "Step 3: Entering privileged mode",
    "Step 4: Checking current SSH configuration",
    "Step 5: Applying SSH configuration",
    "Step 6: Waiting for SSH service to initialize",
    "Step 7: Testing SSH connection",
    "Step 8: Disconnecting serial console",
    "=== Transition Summary ===" ]

/-! ## The SSH connection registry (`index.ts`) -/

/-- What `this.connections` stores per id: the `ssh2` client handle
(opaque, modelled as a number) and the `{host, port, username}` config
recorded at connect time. -/
structure SSHEntry where
  conn : Nat
  host : String
  port : Nat
  username : String
deriving Repr, DecidableEq

/-- The registry `Map` as an association list (keys unique in every
state the server constructs). -/
abbrev Registry := List (String × SSHEntry)

/-- `Map.prototype.get`. -/
def mapLookup (k : String) : Registry → Option SSHEntry
  | [] => none
  | (a, b) :: t => if a = k then some b else mapLookup k t

/-- `Map.prototype.set`: replace in place if the key exists, else
append. -/
def mapSet (k : String) (v : SSHEntry) : Registry → Registry
  | [] => [(k, v)]
  | (a, b) :: t => if a = k then (k, v) :: t else (a, b) :: mapSet k v t

/-- `Map.prototype.delete`. -/
def mapDelete (k : String) : Registry → Registry
  | [] => []
  | (a, b) :: t => if a = k then mapDelete k t else (a, b) :: mapDelete k t

/-- Parameters of `ssh_connect`; `connectionId` defaults to the
generated `ssh-<Date.now()>` id. -/
structure SSHConnectParams where
  host : String
  port : Option Nat
  username : String
  password : Option String
  privateKeyPath : Option String
  passphrase : Option String
  connectionId : Option String
deriving Repr

/-- Environment of `handleSSHConnect`: the generated default id, the
fresh client handle, and the outcomes of the private-key read and of the
ready/error race of `conn.connect`. -/
structure SSHConnectEnv where
  generatedId : String
  newConn : Nat
  keyReadOk : Bool
  keyErrMsg : String
  connectOk : Bool
  connectErrMsg : String
deriving Repr

/-- The entry stored on a successful connect. -/
def connEntry (p : SSHConnectParams) (env : SSHConnectEnv) : SSHEntry :=
  { conn := env.newConn, host := p.host, port := p.port.getD 22,
    username := p.username }

/-- `handleSSHConnect` from `index.ts`: reject when neither password nor
key is supplied, fail on an unreadable key or a connection error
(registry untouched), otherwise store the connection under the id. -/
def handleSSHConnect (reg : Registry) (p : SSHConnectParams)
    (env : SSHConnectEnv) : ToolResult × Registry :=
  let connectionId := p.connectionId.getD env.generatedId
  if p.password.isNone && p.privateKeyPath.isNone then
    ({ isError := true
       text := "Either password or privateKeyPath must be provided" }, reg)
  else if p.privateKeyPath.isSome && !env.keyReadOk then
    ({ isError := true
       text := "Failed to read private key: " ++ env.keyErrMsg }, reg)
  else if !env.connectOk then
    ({ isError := true
       text := "Failed to connect: SSH connection error: " ++ env.connectErrMsg }, reg)
  else
    ({ isError := false
       text := "Successfully connected to " ++ p.username ++ "@" ++ p.host ++ ":"
         ++ toString (p.port.getD 22) ++ "\nConnection ID: " ++ connectionId },
     mapSet connectionId (connEntry p env) reg)

/-- `handleSSHDisconnect` from `index.ts`: unknown id is an error with
the registry untouched; otherwise `conn.end()` is invoked (the third
component reports the handle it was invoked on) and, unless the
defensive catch fires (`endOk = false`), the entry is deleted. -/
def handleSSHDisconnect (reg : Registry) (connectionId : String)
    (endOk : Bool) : ToolResult × Registry × Option Nat :=
  match mapLookup connectionId reg with
  | none =>
    ({ isError := true
       text := "No active SSH connection with ID: " ++ connectionId }, reg, none)
  | some entry =>
    if endOk then
      ({ isError := false
         text := "Disconnected from " ++ entry.username ++ "@" ++ entry.host
           ++ ":" ++ toString entry.port },
       mapDelete connectionId reg, some entry.conn)
    else
      ({ isError := true, text := "Failed to disconnect" }, reg, some entry.conn)

/-! ## Template engine (`ssh-setup-tools.ts`, modelled from the spec) -/

def openBraceChar : Char := Char.ofNat 123

def closeBraceChar : Char := Char.ofNat 125

/-- A command template parsed into literal runs and `(key)`-style
placeholder tokens (the braces themselves are `openBraceChar` /
`closeBraceChar`). -/
inductive TemplateSeg where
  | lit (s : String)
  | placeholder (key : String)
deriving Repr, DecidableEq

/-- The substitution fields as an association list. -/
abbrev Fields := List (String × String)

def fieldsLookup (k : String) : Fields → Option String
  | [] => none
  | (a, b) :: t => if a = k then some b else fieldsLookup k t

/-- The literal text of a placeholder: open brace, key, close brace. -/
def placeholderText (key : String) : String :=
  String.mk (openBraceChar :: key.data ++ [closeBraceChar])

/-- Modelled from the spec: `replaceTemplateVariables` lives in
`ssh-setup-tools.ts`, which is not among the sources; section 4.5 of the
spec describes it as replacing every placeholder occurrence with the
field value while leaving placeholders with no corresponding field as
literal text rather than erroring.  The template is represented as its
parse into literal and placeholder segments. -/
def replaceTemplateVariables (template : List TemplateSeg) (fields : Fields) : String :=
  concatAll (template.map fun seg =>
    match seg with
    | TemplateSeg.lit s => s
    | TemplateSeg.placeholder k =>
      match fieldsLookup k fields with
      | some v => v
      | none => placeholderText k)

/-- A string carrying no brace token. -/
def braceFree (s : String) : Prop :=
  openBraceChar ∉ s.data ∧ closeBraceChar ∉ s.data

instance (s : String) : Decidable (braceFree s) :=
  inferInstanceAs (Decidable (_ ∧ _))

/-- Well-formedness of a template segment: braces appear only as
placeholder delimiters, never inside a literal or a key (the spec allows
no escaping mechanism, so a literal brace in data is unsupported). -/
def segOk : TemplateSeg → Prop
  | TemplateSeg.lit s => braceFree s
  | TemplateSeg.placeholder k => braceFree k

instance : (seg : TemplateSeg) → Decidable (segOk seg)
  | TemplateSeg.lit s => inferInstanceAs (Decidable (braceFree s))
  | TemplateSeg.placeholder k => inferInstanceAs (Decidable (braceFree k))

/-! ## Command protocol pagination (`serial-connection-tools.ts`,
modelled from the spec) -/

/-- The trailing non-blank line of a buffer: split on the line
terminator, drop blank lines, take the last. -/
def lastNonBlankLine (s : String) : String :=
  match ((splitOnChar '\n' s.data).filter
      (fun l => !l.all (fun c => c.isWhitespace))).getLast? with
  | some l => String.mk l
  | none => ""

/-- The pagination pattern: the chunk carries a `--More--` marker. -/
def isPaginationChunk (chunk : String) : Bool :=
  strContainsB chunk "--More--"

/-- The mode-prompt pattern, tested against the last non-blank line of
the chunk: a user prompt ends in a greater-than sign, a privileged or
config prompt in a hash. -/
def isModePromptChunk (chunk : String) : Bool :=
  strEndsWith (lastNonBlankLine chunk) ">" || strEndsWith (lastNonBlankLine chunk) "#"

/-- Observable outcome of one `sendCommand` exchange: the continuation
bytes written to the transport after the initial command write, the text
returned to the caller, and whether the exchange timed out. -/
structure SendOutcome where
  continuationsSent : List String
  output : String
  timedOut : Bool
deriving Repr, DecidableEq

/-- Modelled from the spec: the read loop of `sendCommand` in
`serial-connection-tools.ts`, which is not among the sources.  Per spec
section 4.3, each read chunk is tested pagination-first: a pagination
chunk causes a single space (not a newline) to be written and does not
contribute to the output; a mode-prompt chunk completes the exchange
with the accumulated text; any other chunk is accumulated.  The scripted
environment is the list of chunks successive reads return; exhausting it
models timeout expiry. -/
def sendCommandLoop : List String → SendOutcome
  | [] => { continuationsSent := [], output := "", timedOut := true }
  | chunk :: rest =>
    if isPaginationChunk chunk then
      let r := sendCommandLoop rest
      { r with continuationsSent := " " :: r.continuationsSent }
    else if isModePromptChunk chunk then
      { continuationsSent := [], output := chunk, timedOut := false }
    else
      let r := sendCommandLoop rest
      { r with output := chunk ++ r.output }

/-- `sendCommand`: write the command plus line terminator (not part of
`continuationsSent`), then run the read loop over the scripted
chunks. -/
def sendCommand (command : String) (script : List String) : SendOutcome :=
  sendCommandLoop script

/-! ## Tool-call dispatch (`setupHandlers` in `index.ts`) -/

def sshCoreToolNames : List String :=
  ["ssh_connect", "ssh_exec", "ssh_upload_file", "ssh_download_file",
   "ssh_list_files", "ssh_disconnect"]

def ubuntuToolNames : List String :=
  ["ubuntu_nginx_control", "ubuntu_update_packages", "ubuntu_ssl_certificate",
   "ubuntu_website_deployment", "ubuntu_ufw_firewall"]

def networkSwitchToolNames : List String :=
  ["switch_discover_device", "switch_show_interfaces", "switch_show_vlans",
   "switch_backup_config", "switch_network_diagnostics", "switch_show_mac_table"]

def serialToolNames : List String :=
  ["serial_list_ports", "serial_connect", "serial_send_command",
   "serial_enter_enable", "serial_enter_config", "serial_exit_mode",
   "serial_discover_device", "serial_send_interactive",
   "serial_list_connections", "serial_disconnect"]

def firmwareToolNames : List String :=
  ["switch_check_firmware", "switch_check_storage", "switch_upload_firmware",
   "switch_verify_firmware", "switch_install_firmware", "switch_prepare_rollback"]

def sshSetupToolNames : List String :=
  ["switch_generate_ssh_config", "switch_apply_ssh_config",
   "switch_verify_ssh_status", "switch_test_ssh_connection",
   "switch_complete_ssh_setup"]

def consoleTransitionToolNames : List String :=
  ["console_to_ssh_transition", "quick_ssh_check"]

/-- Where the `CallToolRequestSchema` handler routes a tool name: the
handler table that receives the call, or one of the two `Unknown`
throws. -/
inductive DispatchOutcome where
  | sshCore (name : String)
  | unknownSshTool (name : String)
  | ubuntu (name : String)
  | networkSwitch (name : String)
  | serialTool (name : String)
  | firmware (name : String)
  | sshSetup (name : String)
  | consoleTransition (name : String)
  | unknownTool (name : String)
deriving Repr, DecidableEq

/-- The guard chain of the tool-call dispatcher, in source order.  A
handler table membership test models `handlers[toolName]` being
truthy. -/
def dispatchToolCall (toolName : String) : DispatchOutcome :=
  if strStartsWith toolName "ssh_" then
    if sshCoreToolNames.contains toolName then DispatchOutcome.sshCore toolName
    else DispatchOutcome.unknownSshTool toolName
  else if strStartsWith toolName "ubuntu_" && ubuntuToolNames.contains toolName then
    DispatchOutcome.ubuntu toolName
  else if strStartsWith toolName "switch_" && networkSwitchToolNames.contains toolName then
    DispatchOutcome.networkSwitch toolName
  else if strStartsWith toolName "serial_" && serialToolNames.contains toolName then
    DispatchOutcome.serialTool toolName
  else if strStartsWith toolName "switch_" && strContainsB toolName "firmware"
      && firmwareToolNames.contains toolName then
    DispatchOutcome.firmware toolName
  else if strStartsWith toolName "switch_"
      && (strContainsB toolName "ssh" || strContainsB toolName "config"
          || strContainsB toolName "setup")
      && sshSetupToolNames.contains toolName then
    DispatchOutcome.sshSetup toolName
  else if (strStartsWith toolName "console_" || toolName == "quick_ssh_check")
      && consoleTransitionToolNames.contains toolName then
    DispatchOutcome.consoleTransition toolName
  else DispatchOutcome.unknownTool toolName

/-! ## Configuration backup (`switch_backup_config` in
`network-switch-tools.ts`) -/

/-- The per-vendor command table `SwitchCommands`. -/
structure SwitchCommandSet where
  showVersion : String
  showRunningConfig : String
  showStartupConfig : String
  showInterfaces : String
  showVlans : String
  showMacTable : String
  showArp : String
  showLldp : String
  enableMode : String
  configMode : String
  saveConfig : String
  showInventory : String
  showPowerStatus : String
  showEnvironment : String
  showSystem : String
  showCdp : Option String
  ping : String → String
  traceroute : String → String

def ciscoCommands : SwitchCommandSet :=
  { showVersion := "show version"
    showRunningConfig := "show running-config"
    showStartupConfig := "show startup-config"
    showInterfaces := "show interfaces status"
    showVlans := "show vlan brief"
    showMacTable := "show mac address-table"
    showArp := "show arp"
    showCdp := some "show cdp neighbors detail"
    showLldp := "show lldp neighbors detail"
    enableMode := "enable"
    configMode := "configure terminal"
    saveConfig := "copy running-config startup-config"
    showInventory := "show inventory"
    showPowerStatus := "show power"
    showEnvironment := "show environment"
    showSystem := "show version"
    ping := fun target => "ping " ++ target
    traceroute := fun target => "traceroute " ++ target }

def arubaCommands : SwitchCommandSet :=
  { showVersion := "show version"
    showRunningConfig := "show running-config"
    showStartupConfig := "show config"
    showInterfaces := "show interfaces brief"
    showVlans := "show vlans"
    showMacTable := "show mac-address-table"
    showArp := "show arp"
    showCdp := none
    showLldp := "show lldp info remote-device"
    enableMode := "enable"
    configMode := "configure"
    saveConfig := "write memory"
    showSystem := "show system"
    showInventory := "show system"
    showPowerStatus := "show power-consumption"
    showEnvironment := "show system"
    ping := fun target => "ping " ++ target
    traceroute := fun target => "traceroute " ++ target }

/-- `deviceType.startsWith('cisco') ? SwitchCommands.cisco :
SwitchCommands.aruba` — the generic tag falls through to the Aruba
table, exactly as in the source. -/
def commandsFor (d : DeviceType) : SwitchCommandSet :=
  if strStartsWith (deviceTypeName d) "cisco" then ciscoCommands else arubaCommands

/-- An externally visible action of an SSH-based switch tool: a command
executed on the device, or a write to the local filesystem.  The
embedding lists every effectful call of the handler body. -/
inductive Effect where
  | deviceCommand (cmd : String)
  | fsWrite (path : String) (contents : String)
deriving Repr, DecidableEq

/-- Parameters of `switch_backup_config`; `configType` defaults to
`running`. -/
structure BackupParams where
  connectionId : String
  configType : Option String
deriving Repr

/-- Environment of `switch_backup_config`: whether the connection id is
registered, the outcomes and outputs of its two device commands, and
`new Date().toISOString()`. -/
structure BackupEnv where
  connectionExists : Bool
  versionOk : Bool
  versionOutput : String
  versionErrMsg : String
  configOk : Bool
  configOutput : String
  configErrMsg : String
  timestampIso : String
deriving Repr

/-- `timestamp.replace(/[:.]/g, '-')`. -/
def sanitizeTimestamp (s : String) : String :=
  String.mk (s.data.map (fun c => if c = ':' ∨ c = '.' then '-' else c))

/-- The generated backup filename. -/
def backupFilename (p : BackupParams) (env : BackupEnv) : String :=
  "switch-config-" ++ p.configType.getD "running" ++ "-"
    ++ sanitizeTimestamp env.timestampIso ++ ".txt"

/-- The show-config command selected for the device type and config
type. -/
def backupConfigCommand (env : BackupEnv) (configType : String) : String :=
  let commands := commandsFor (detectDeviceType env.versionOutput)
  if configType == "startup" then commands.showStartupConfig
  else commands.showRunningConfig

/-- `switch_backup_config` from `network-switch-tools.ts`: look up the
connection, run `show version` to classify the device, run the config
command, and return a report naming a generated backup file; every
effectful call of the handler body appears in the trace — there is no
`fs` call to emit. -/
def switch_backup_config (p : BackupParams) (env : BackupEnv) :
    ToolResult × List Effect :=
  let configType := p.configType.getD "running"
  if !env.connectionExists then
    ({ isError := true
       text := "Configuration backup error: No active SSH connection with ID: "
         ++ p.connectionId }, [])
  else if !env.versionOk then
    ({ isError := true, text := "Configuration backup error: " ++ env.versionErrMsg },
     [Effect.deviceCommand "show version"])
  else if !env.configOk then
    ({ isError := true, text := "Configuration backup error: " ++ env.configErrMsg },
     [Effect.deviceCommand "show version",
      Effect.deviceCommand (backupConfigCommand env configType)])
  else
    ({ isError := false
       text := "Configuration Backup ("
         ++ deviceTypeName (detectDeviceType env.versionOutput) ++ " - " ++ configType
         ++ "):\n\nBackup saved as: " ++ backupFilename p env
         ++ "\n\nConfiguration:\n" ++ env.configOutput },
     [Effect.deviceCommand "show version",
      Effect.deviceCommand (backupConfigCommand env configType)])

/-! ## Concrete inputs used by the witnesses and the counterexample -/

/-- A parameter set that passes validation, with the transition
confirmed. -/
def pValid : TransParams :=
  { port := "COM3", hostname := "CoreSwitch01", ip_address := "192.168.1.10",
    subnet_mask := none, gateway := "192.168.1.1", username := "admin",
    password := "SecurePass123", enable_password := none, deviceType := none,
    securityLevel := none, baudRate := none, confirmTransition := true }

/-- The same parameter set with a malformed IP address. -/
def pInvalidIp : TransParams :=
  { pValid with ip_address := "not-an-ip" }

/-- The same parameter set without the confirmation flag. -/
def pNoConfirm : TransParams :=
  { pValid with confirmTransition := false }

/-- Every sub-call succeeds. -/
def envAllOk : TransEnv :=
  { connectResult := { isError := false, text := "Connected to COM3" }
    discoverResult := { isError := false, text := "Device type: cisco-ios" }
    enableResult := { isError := false, text := "In privileged mode" }
    statusResult := { isError := false, text := "SSH not configured" }
    applyResult := { isError := false, text := "Applied 12 commands" }
    testResult := { isError := false, text := "SSH connection established" }
    disconnectResult := { isError := false, text := "Disconnected" } }

/-- Enable and apply fail, the SSH test succeeds. -/
def envEnableApplyFail : TransEnv :=
  { envAllOk with
    enableResult := { isError := true, text := "Enable mode failed: access denied" }
    applyResult := { isError := true, text := "Configuration failed on 3 commands" } }

/-- The serial connect itself fails. -/
def envConnectFail : TransEnv :=
  { envAllOk with
    connectResult := { isError := true, text := "Port COM3 not found" } }

/-- Only the SSH connection test fails. -/
def envTestFail : TransEnv :=
  { envAllOk with
    testResult := { isError := true, text := "Connection refused" } }

/-- A registry holding one SSH connection. -/
def regDemo : Registry :=
  [("vps-1", { conn := 7, host := "203.0.113.5", port := 22, username := "root" })]

def connParamsDemo : SSHConnectParams :=
  { host := "192.168.1.10", port := none, username := "admin",
    password := some "SecurePass123", privateKeyPath := none,
    passphrase := none, connectionId := some "switch-1" }

def connEnvDemo : SSHConnectEnv :=
  { generatedId := "ssh-1700000000000", newConn := 8, keyReadOk := true,
    keyErrMsg := "", connectOk := true, connectErrMsg := "" }

/-- A two-placeholder command template. -/
def demoTemplate : List TemplateSeg :=
  [TemplateSeg.lit "hostname ", TemplateSeg.placeholder "hostname",
   TemplateSeg.lit "\nip default-gateway ", TemplateSeg.placeholder "gateway"]

def demoFields : Fields := [("hostname", "SW1"), ("gateway", "192.168.1.1")]

def demoFieldsMissing : Fields := [("hostname", "SW1")]

/-- A scripted read sequence: partial output, a pagination marker, more
partial output, and a privileged-prompt line. -/
def demoScript : List String :=
  ["Port      Name  Status\nGi1/0/1         connected\n",
   " --More-- ",
   "Gi1/0/2         notconnect\n",
   "Switch#"]

def backupEnvDemo : BackupEnv :=
  { connectionExists := true, versionOk := true,
    versionOutput := "Cisco IOS Software, C2960X Software",
    versionErrMsg := "", configOk := true,
    configOutput := "hostname SW1\nip default-gateway 192.168.1.1\nend",
    configErrMsg := "", timestampIso := "2024-05-01T12:30:45.123Z" }

def backupParamsDemo : BackupParams :=
  { connectionId := "switch-1", configType := none }

/-! ## General lemmas -/

theorem strContains_lower_of_strContains {s pat : String}
    (h : strContains s pat) : strContains (lowerStr s) (lowerStr pat) := by
  unfold strContains lowerStr at *
  exact List.IsInfix.map Char.toLower h

theorem strContains_trans {s pat₁ pat₂ : String}
    (h₁ : strContains pat₁ pat₂) (h₂ : strContains s pat₁) :
    strContains s pat₂ :=
  List.IsInfix.trans h₁ h₂

theorem strContains_append_of_left {a pat : String} (b : String)
    (h : strContains a pat) : strContains (a ++ b) pat := by
  unfold strContains at *
  rw [String.data_append]
  rcases h with ⟨u, v, huv⟩
  exact ⟨u, v ++ b.data, by rw [← huv]; simp⟩

theorem strContains_append_of_right {b pat : String} (a : String)
    (h : strContains b pat) : strContains (a ++ b) pat := by
  unfold strContains at *
  rw [String.data_append]
  rcases h with ⟨u, v, huv⟩
  exact ⟨a.data ++ u, v, by rw [← huv]; simp⟩

theorem strContains_self (s : String) : strContains s s :=
  ⟨[], [], by simp⟩

theorem strContains_append_pair {a b pat₁ pat₂ : String}
    (h₁ : pat₁.data <:+ a.data) (h₂ : pat₂.data <+: b.data) :
    strContains (a ++ b) (pat₁ ++ pat₂) := by
  unfold strContains
  rw [String.data_append, String.data_append]
  rcases h₁ with ⟨u, hu⟩
  rcases h₂ with ⟨v, hv⟩
  exact ⟨u, v, by rw [← hu, ← hv]; simp⟩

theorem strContains_concatAll {l : List String} {s pat : String}
    (hs : s ∈ l) (h : strContains s pat) : strContains (concatAll l) pat := by
  induction l with
  | nil => cases hs
  | cons a t ih =>
    rcases List.mem_cons.mp hs with rfl | hmem
    · exact strContains_append_of_left _ h
    · exact strContains_append_of_right _ (ih hmem)

theorem strContains_joinLines {l : List String} {s : String}
    (hs : s ∈ l) : strContains (joinLines l) s := by
  induction l with
  | nil => cases hs
  | cons a t ih =>
    rcases List.mem_cons.mp hs with rfl | hmem
    · cases t with
      | nil => exact strContains_self s
      | cons b u =>
        show strContains (s ++ "\n" ++ joinLines (b :: u)) s
        exact strContains_append_of_left _
          (strContains_append_of_left _ (strContains_self s))
    · cases t with
      | nil => cases hmem
      | cons b u =>
        show strContains (a ++ "\n" ++ joinLines (b :: u)) s
        exact strContains_append_of_right _ (ih hmem)

theorem strContains_bulletList {errors : List String} {e : String}
    (he : e ∈ errors) : strContains (bulletList errors) e := by
  have hmem : ("- " ++ e) ∈ errors.map (fun x => "- " ++ x) :=
    List.mem_map_of_mem _ he
  have h₁ : strContains ("- " ++ e) e :=
    strContains_append_of_right _ (strContains_self e)
  exact strContains_trans h₁ (strContains_joinLines hmem)

/-! ## Registry lemmas -/

theorem mapLookup_mapSet_self (k : String) (v : SSHEntry) (r : Registry) :
    mapLookup k (mapSet k v r) = some v := by
  induction r with
  | nil => simp [mapSet, mapLookup]
  | cons a t ih =>
    obtain ⟨a₁, a₂⟩ := a
    by_cases h : a₁ = k <;> simp [mapSet, h, mapLookup, ih]

theorem mapLookup_mapSet_ne (k : String) (v : SSHEntry) (r : Registry)
    (q : String) (h : q ≠ k) :
    mapLookup q (mapSet k v r) = mapLookup q r := by
  induction r with
  | nil => simp [mapSet, mapLookup, Ne.symm h]
  | cons a t ih =>
    obtain ⟨a₁, a₂⟩ := a
    by_cases ha : a₁ = k
    · subst ha
      simp [mapSet, mapLookup, Ne.symm h]
    · by_cases hq : a₁ = q
      · subst hq
        simp [mapSet, mapLookup, ha]
      · simp [mapSet, mapLookup, ha, hq, ih]

theorem length_mapSet_of_lookup_none (k : String) (v : SSHEntry) (r : Registry)
    (h : mapLookup k r = none) : (mapSet k v r).length = r.length + 1 := by
  induction r with
  | nil => simp [mapSet]
  | cons a t ih =>
    obtain ⟨a₁, a₂⟩ := a
    by_cases ha : a₁ = k
    · simp [mapLookup, ha] at h
    · simp [mapLookup, ha] at h
      simp [mapSet, ha, ih h]

theorem mapLookup_mapDelete_self (k : String) (r : Registry) :
    mapLookup k (mapDelete k r) = none := by
  induction r with
  | nil => simp [mapDelete, mapLookup]
  | cons a t ih =>
    obtain ⟨a₁, a₂⟩ := a
    by_cases ha : a₁ = k <;> simp [mapDelete, ha, mapLookup, ih]

theorem mapLookup_mapDelete_ne (k : String) (r : Registry) (q : String)
    (h : q ≠ k) : mapLookup q (mapDelete k r) = mapLookup q r := by
  induction r with
  | nil => simp [mapDelete]
  | cons a t ih =>
    obtain ⟨a₁, a₂⟩ := a
    by_cases ha : a₁ = k
    · subst ha
      simp [mapDelete, mapLookup, Ne.symm h, ih]
    · by_cases hq : a₁ = q
      · subst hq
        simp [mapDelete, mapLookup, ha]
      · simp [mapDelete, mapLookup, ha, hq, ih]

theorem mapDelete_eq_self_of_not_mem (k : String) (r : Registry)
    (h : k ∉ r.map Prod.fst) : mapDelete k r = r := by
  induction r with
  | nil => rfl
  | cons a t ih =>
    obtain ⟨a₁, a₂⟩ := a
    simp only [List.map_cons, List.mem_cons] at h
    push_neg at h
    have hne : a₁ ≠ k := fun hh => h.1 hh.symm
    simp [mapDelete, hne, ih h.2]

theorem length_mapDelete_of_nodup (k : String) (r : Registry) (e : SSHEntry)
    (hnd : (r.map Prod.fst).Nodup) (h : mapLookup k r = some e) :
    (mapDelete k r).length + 1 = r.length := by
  induction r with
  | nil => simp [mapLookup] at h
  | cons a t ih =>
    obtain ⟨a₁, a₂⟩ := a
    simp only [List.map_cons, List.nodup_cons] at hnd
    by_cases ha : a₁ = k
    · subst ha
      simp [mapDelete, mapDelete_eq_self_of_not_mem _ _ hnd.1]
    · simp [mapLookup, ha] at h
      have := ih hnd.2 h
      simp [mapDelete, ha]
      omega

/-! ## Template lemmas -/

theorem braceFree_append {a b : String} (ha : braceFree a) (hb : braceFree b) :
    braceFree (a ++ b) := by
  unfold braceFree at *
  rw [String.data_append]
  simp only [List.mem_append]
  exact ⟨fun h => h.elim ha.1 hb.1, fun h => h.elim ha.2 hb.2⟩

theorem braceFree_concatAll {l : List String}
    (h : ∀ s ∈ l, braceFree s) : braceFree (concatAll l) := by
  induction l with
  | nil => exact ⟨by simp [concatAll], by simp [concatAll]⟩
  | cons a t ih =>
    exact braceFree_append (h a (List.mem_cons_self _ _))
      (ih fun s hs => h s (List.mem_cons_of_mem _ hs))

theorem fieldsLookup_mem {k v : String} {fields : Fields}
    (h : fieldsLookup k fields = some v) : (k, v) ∈ fields := by
  induction fields with
  | nil => simp [fieldsLookup] at h
  | cons a t ih =>
    obtain ⟨a₁, a₂⟩ := a
    by_cases ha : a₁ = k
    · subst ha
      simp [fieldsLookup] at h
      subst h
      exact List.mem_cons_self _ _
    · simp [fieldsLookup, ha] at h
      exact List.mem_cons_of_mem _ (ih h)

/-! ## Claim theorems -/

/-- C1: with `confirmTransition = true`, a valid `NetworkConfig`, and
the serial connect succeeding, `console_to_ssh_transition` performs its
stages in exactly the order connect, discover, enter enable, verify SSH
status, apply configuration, fixed wait, SSH test, disconnect, and
returns a non-error human-readable report naming every stage. -/
theorem transition_stage_order (p : TransParams) (env : TransEnv)
    (hv : (validateNetworkConfig (transitionConfig p)).valid = true)
    (hc : p.confirmTransition = true)
    (hconn : env.connectResult.isError = false) :
    (console_to_ssh_transition p env).2 = fullStageOrder ∧
    (console_to_ssh_transition p env).1.isError = false ∧
    ∀ h ∈ transitionStepHeaders,
      strContains (console_to_ssh_transition p env).1.text h := by
  have hrun : console_to_ssh_transition p env =
      ({ isError := false, text := transitionReport p env }, fullStageOrder) := by
    unfold console_to_ssh_transition
    simp [hv, hc, hconn]
  refine ⟨by rw [hrun], by rw [hrun], ?_⟩
  intro h hmem
  rw [hrun]
  show strContains (transitionReport p env) h
  unfold transitionReport
  simp only [transitionStepHeaders, List.mem_cons, List.not_mem_nil, or_false] at hmem
  rcases hmem with rfl | rfl | rfl | rfl | rfl | rfl | rfl | rfl | rfl
  · exact strContains_concatAll (s := "📡 Step 1: Connecting via serial console...\n")
      (by simp [transitionSections]) (by decide)
  · exact strContains_concatAll (s := "🔍 Step 2: Discovering device type...\n")
      (by simp [transitionSections]) (by decide)
  · exact strContains_concatAll (s := "🔑 Step 3: Entering privileged mode...\n")
      (by simp [transitionSections]) (by decide)
  · exact strContains_concatAll (s := "📋 Step 4: Checking current SSH configuration...\n")
      (by simp [transitionSections]) (by decide)
  · exact strContains_concatAll (s := "⚙️  Step 5: Applying SSH configuration...\n")
      (by simp [transitionSections]) (by decide)
  · exact strContains_concatAll
      (s := "⏳ Step 6: Waiting for SSH service to initialize (30 seconds)...\n")
      (by simp [transitionSections]) (by decide)
  · exact strContains_concatAll (s := "🔌 Step 7: Testing SSH connection...\n")
      (by simp [transitionSections]) (by decide)
  · exact strContains_concatAll (s := "🔌 Step 8: Disconnecting serial console...\n")
      (by simp [transitionSections]) (by decide)
  · exact strContains_concatAll (s := "=== Transition Summary ===\n\n")
      (by simp [transitionSections]) (by decide)

/-- Witness for C1 at a concrete valid parameter set and an all-success
environment. -/
theorem transition_stage_order_witness :
    (console_to_ssh_transition pValid envAllOk).2 = fullStageOrder ∧
    (console_to_ssh_transition pValid envAllOk).1.isError = false := by
  have h := transition_stage_order pValid envAllOk (by decide) rfl rfl
  exact ⟨h.1, h.2.1⟩

/-- C2 (amended): connect failure is fatal — error result, no stage
after connect; enable, apply, and SSH-test failures do not abort — the
run records the warning, executes every remaining stage, and returns a
non-error report; but the summary is downgraded to PARTIAL SUCCESS
exactly when the SSH test failed — an enable or apply failure alone
leaves the summary at full success. -/
theorem transition_failure_tolerance (p : TransParams) (env : TransEnv)
    (hv : (validateNetworkConfig (transitionConfig p)).valid = true)
    (hc : p.confirmTransition = true) :
    (env.connectResult.isError = true →
      (console_to_ssh_transition p env).1.isError = true ∧
      (console_to_ssh_transition p env).2 = [Stage.connect]) ∧
    (env.connectResult.isError = false →
      (console_to_ssh_transition p env).1.isError = false ∧
      (console_to_ssh_transition p env).2 = fullStageOrder ∧
      (transitionEnableWarn env = true →
        strContains (console_to_ssh_transition p env).1.text "Warning:") ∧
      (env.applyResult.isError = true →
        strContains (console_to_ssh_transition p env).1.text "Configuration had issues") ∧
      (env.testResult.isError = true →
        transitionSummarySection p env = transitionPartialSummary p ∧
        strContains (console_to_ssh_transition p env).1.text "PARTIAL SUCCESS") ∧
      (env.testResult.isError = false →
        transitionSummarySection p env = transitionSuccessSummary p)) := by
  constructor
  · intro hconn
    unfold console_to_ssh_transition
    simp [hv, hc, hconn]
  · intro hconn
    have hrun : console_to_ssh_transition p env =
        ({ isError := false, text := transitionReport p env }, fullStageOrder) := by
      unfold console_to_ssh_transition
      simp [hv, hc, hconn]
    rw [hrun]
    refine ⟨rfl, rfl, ?_, ?_, ?_, ?_⟩
    · intro hw
      show strContains (transitionReport p env) "Warning:"
      unfold transitionReport
      refine strContains_concatAll
        (s := "⚠️  Warning: " ++ env.enableResult.text ++ "\n" ++ "Continuing anyway...\n\n")
        ?_ ?_
      · simp [transitionSections, hw]
      · exact strContains_append_of_left _ (strContains_append_of_left _
          (strContains_append_of_left _ (by decide)))
    · intro ha
      show strContains (transitionReport p env) "Configuration had issues"
      unfold transitionReport
      refine strContains_concatAll
        (s := "⚠️  Configuration had issues: " ++ env.applyResult.text ++ "\n\n")
        ?_ ?_
      · simp [transitionSections, ha]
      · exact strContains_append_of_left _ (strContains_append_of_left _ (by decide))
    · intro ht
      have hsum : transitionSummarySection p env = transitionPartialSummary p := by
        unfold transitionSummarySection
        simp [ht]
      refine ⟨hsum, ?_⟩
      show strContains (transitionReport p env) "PARTIAL SUCCESS"
      unfold transitionReport
      refine strContains_concatAll (s := transitionSummarySection p env)
        (by simp [transitionSections]) ?_
      rw [hsum]
      unfold transitionPartialSummary
      refine strContains_append_of_left _ (strContains_append_of_left _
        (strContains_append_of_left _ (strContains_append_of_left _
          (strContains_append_of_left _ (strContains_append_of_left _ (by decide))))))
    · intro ht
      unfold transitionSummarySection
      simp [ht]

/-- Witness for C2 (amended): connect failure is fatal at a concrete
input, and an SSH-test failure alone downgrades the summary. -/
theorem transition_failure_tolerance_witness :
    (console_to_ssh_transition pValid envConnectFail).1.isError = true ∧
    (console_to_ssh_transition pValid envConnectFail).2 = [Stage.connect] ∧
    (console_to_ssh_transition pValid envTestFail).1.isError = false ∧
    transitionSummarySection pValid envTestFail = transitionPartialSummary pValid := by
  have h₁ := (transition_failure_tolerance pValid envConnectFail (by decide) rfl).1 rfl
  have h₂ := (transition_failure_tolerance pValid envTestFail (by decide) rfl).2 rfl
  exact ⟨h₁.1, h₁.2, h₂.1, (h₂.2.2.2.2.1 rfl).1⟩

/-- Counterexample to C2 as stated: with the serial connect succeeding,
the enable stage failing, and the apply stage failing, but the SSH test
succeeding, the run returns a non-error report whose summary block is
the full-success text, not the partial-success text — so an enable or
apply failure does not downgrade the summary to partial success. -/
theorem transition_partial_summary_counterexample :
    (console_to_ssh_transition pValid envEnableApplyFail).1.isError = false ∧
    transitionEnableWarn envEnableApplyFail = true ∧
    envEnableApplyFail.applyResult.isError = true ∧
    transitionSummarySection pValid envEnableApplyFail = transitionSuccessSummary pValid ∧
    transitionSummarySection pValid envEnableApplyFail ≠ transitionPartialSummary pValid := by
  refine ⟨by decide, by decide, rfl, rfl, ?_⟩
  decide

/-- C3: `detectDeviceType` is a pure total function implementing a
case-insensitive priority search — `cisco ios xe` before `cisco ios`
before `aruba`/`procurve`, falling back to generic — and any text
containing `Cisco IOS XE Software` classifies as cisco-ios-xe, never
plain cisco-ios. -/
theorem detectDeviceType_priority (t : String) :
    (strContains (lowerStr t) "cisco ios xe" → detectDeviceType t = DeviceType.ciscoIosXe) ∧
    (¬ strContains (lowerStr t) "cisco ios xe" → strContains (lowerStr t) "cisco ios" →
      detectDeviceType t = DeviceType.ciscoIos) ∧
    (¬ strContains (lowerStr t) "cisco ios" →
      (strContains (lowerStr t) "aruba" ∨ strContains (lowerStr t) "procurve") →
      detectDeviceType t = DeviceType.arubaSwitch) ∧
    (¬ strContains (lowerStr t) "cisco ios" → ¬ strContains (lowerStr t) "aruba" →
      ¬ strContains (lowerStr t) "procurve" → detectDeviceType t = DeviceType.generic) ∧
    (strContains t "Cisco IOS XE Software" → detectDeviceType t = DeviceType.ciscoIosXe) := by
  have hmono : strContains (lowerStr t) "cisco ios xe" → strContains (lowerStr t) "cisco ios" :=
    fun h => strContains_trans (by decide) h
  refine ⟨?_, ?_, ?_, ?_, ?_⟩
  · intro h
    simp [detectDeviceType, strContainsB, h]
  · intro h₁ h₂
    simp [detectDeviceType, strContainsB, h₁, h₂]
  · intro h₁ h₂
    have hxe : ¬ strContains (lowerStr t) "cisco ios xe" := fun hx => h₁ (hmono hx)
    rcases h₂ with h | h <;> simp [detectDeviceType, strContainsB, h₁, hxe, h]
  · intro h₁ h₂ h₃
    have hxe : ¬ strContains (lowerStr t) "cisco ios xe" := fun hx => h₁ (hmono hx)
    simp [detectDeviceType, strContainsB, h₁, h₂, h₃, hxe]
  · intro h
    have hlow : strContains (lowerStr t) (lowerStr "Cisco IOS XE Software") :=
      strContains_lower_of_strContains h
    have hx : strContains (lowerStr t) "cisco ios xe" := by
      refine strContains_trans ?_ hlow
      decide
    simp [detectDeviceType, strContainsB, hx]

/-- Witness for C3 at a concrete IOS-XE banner. -/
theorem detectDeviceType_priority_witness :
    detectDeviceType "Cisco IOS XE Software, Version 16.09.04" = DeviceType.ciscoIosXe :=
  (detectDeviceType_priority "Cisco IOS XE Software, Version 16.09.04").2.2.2.2 (by decide)

/-- C4: whenever validation reports the configuration invalid,
`console_to_ssh_transition` returns an error result whose text lists
every reported validation error, and the stage trace is empty — the
serial connection is never opened and no command is sent. -/
theorem transition_validation_gate (p : TransParams) (env : TransEnv)
    (hv : (validateNetworkConfig (transitionConfig p)).valid = false) :
    (console_to_ssh_transition p env).1.isError = true ∧
    (console_to_ssh_transition p env).2 = [] ∧
    ∀ e ∈ (validateNetworkConfig (transitionConfig p)).errors,
      strContains (console_to_ssh_transition p env).1.text e := by
  have hrun : console_to_ssh_transition p env =
      ({ isError := true
         text := "Configuration validation failed:\n"
           ++ bulletList (validateNetworkConfig (transitionConfig p)).errors }, []) := by
    unfold console_to_ssh_transition
    simp [hv]
  rw [hrun]
  refine ⟨rfl, rfl, ?_⟩
  intro e he
  exact strContains_append_of_right _ (strContains_bulletList he)

/-- Witness for C4 at a parameter set with a malformed IP address. -/
theorem transition_validation_gate_witness :
    (console_to_ssh_transition pInvalidIp envAllOk).1.isError = true ∧
    (console_to_ssh_transition pInvalidIp envAllOk).2 = [] ∧
    strContains (console_to_ssh_transition pInvalidIp envAllOk).1.text
      "Invalid ip_address format" := by
  have h := transition_validation_gate pInvalidIp envAllOk (by decide)
  exact ⟨h.1, h.2.1, h.2.2 "Invalid ip_address format" (by decide)⟩

/-- C5: the SSH connection registry changes only at connect and
disconnect — a successful `ssh_connect` stores exactly one entry under
the supplied (or generated) id, leaving every other id unchanged;
`ssh_disconnect` on a registered id closes that connection and removes
exactly that entry; `ssh_disconnect` on an unknown id returns an error
and leaves the registry unchanged. -/
theorem ssh_registry_connect_disconnect (reg : Registry) (p : SSHConnectParams)
    (env : SSHConnectEnv) (cid : String) (endOk : Bool) :
    ((p.password.isSome ∨ p.privateKeyPath.isSome) →
      (p.privateKeyPath.isSome → env.keyReadOk = true) →
      env.connectOk = true →
      (handleSSHConnect reg p env).1.isError = false ∧
      (handleSSHConnect reg p env).2 =
        mapSet (p.connectionId.getD env.generatedId) (connEntry p env) reg ∧
      mapLookup (p.connectionId.getD env.generatedId) (handleSSHConnect reg p env).2 =
        some (connEntry p env) ∧
      (∀ k, k ≠ p.connectionId.getD env.generatedId →
        mapLookup k (handleSSHConnect reg p env).2 = mapLookup k reg) ∧
      (mapLookup (p.connectionId.getD env.generatedId) reg = none →
        (handleSSHConnect reg p env).2.length = reg.length + 1)) ∧
    (∀ e, mapLookup cid reg = some e → endOk = true →
      (handleSSHDisconnect reg cid endOk).1.isError = false ∧
      (handleSSHDisconnect reg cid endOk).2.2 = some e.conn ∧
      mapLookup cid (handleSSHDisconnect reg cid endOk).2.1 = none ∧
      (∀ k, k ≠ cid →
        mapLookup k (handleSSHDisconnect reg cid endOk).2.1 = mapLookup k reg) ∧
      ((reg.map Prod.fst).Nodup →
        (handleSSHDisconnect reg cid endOk).2.1.length + 1 = reg.length)) ∧
    (mapLookup cid reg = none →
      (handleSSHDisconnect reg cid endOk).1.isError = true ∧
      (handleSSHDisconnect reg cid endOk).2.1 = reg) := by
  refine ⟨?_, ?_, ?_⟩
  · intro hauth hkey hconn
    have hne : ¬(p.password.isNone && p.privateKeyPath.isNone) = true := by
      rcases hauth with h | h <;> simp [Option.isSome_iff_exists] at h <;>
        obtain ⟨x, hx⟩ := h <;> simp [hx]
    have hkey' : ¬(p.privateKeyPath.isSome && !env.keyReadOk) = true := by
      by_cases hp : p.privateKeyPath.isSome
      · simp [hp, hkey hp]
      · simp [hp]
    have hrun : handleSSHConnect reg p env =
        ({ isError := false
           text := "Successfully connected to " ++ p.username ++ "@" ++ p.host ++ ":"
             ++ toString (p.port.getD 22) ++ "\nConnection ID: "
             ++ p.connectionId.getD env.generatedId },
         mapSet (p.connectionId.getD env.generatedId) (connEntry p env) reg) := by
      unfold handleSSHConnect
      simp only [hconn]
      rw [if_neg hne, if_neg hkey']
      simp
    rw [hrun]
    refine ⟨rfl, rfl, mapLookup_mapSet_self _ _ _, ?_, ?_⟩
    · intro k hk
      exact mapLookup_mapSet_ne _ _ _ _ hk
    · intro hnone
      exact length_mapSet_of_lookup_none _ _ _ hnone
  · intro e he hend
    have hrun : handleSSHDisconnect reg cid endOk =
        ({ isError := false
           text := "Disconnected from " ++ e.username ++ "@" ++ e.host
             ++ ":" ++ toString e.port },
         mapDelete cid reg, some e.conn) := by
      unfold handleSSHDisconnect
      rw [he, hend]
      simp
    rw [hrun]
    refine ⟨rfl, rfl, mapLookup_mapDelete_self _ _, ?_, ?_⟩
    · intro k hk
      exact mapLookup_mapDelete_ne _ _ _ hk
    · intro hnd
      exact length_mapDelete_of_nodup _ _ e hnd he
  · intro hnone
    have hrun : handleSSHDisconnect reg cid endOk =
        ({ isError := true
           text := "No active SSH connection with ID: " ++ cid }, reg, none) := by
      unfold handleSSHDisconnect
      rw [hnone]
    rw [hrun]
    exact ⟨rfl, rfl⟩

/-- Witness for C5: connect adds an entry under the supplied id,
disconnect removes a registered entry, disconnect of an unknown id
errors and changes nothing. -/
theorem ssh_registry_connect_disconnect_witness :
    (handleSSHConnect regDemo connParamsDemo connEnvDemo).1.isError = false ∧
    mapLookup "switch-1" (handleSSHConnect regDemo connParamsDemo connEnvDemo).2 =
      some (connEntry connParamsDemo connEnvDemo) ∧
    (handleSSHConnect regDemo connParamsDemo connEnvDemo).2.length = regDemo.length + 1 ∧
    (handleSSHDisconnect regDemo "vps-1" true).1.isError = false ∧
    mapLookup "vps-1" (handleSSHDisconnect regDemo "vps-1" true).2.1 = none ∧
    (handleSSHDisconnect regDemo "missing-id" true).1.isError = true ∧
    (handleSSHDisconnect regDemo "missing-id" true).2.1 = regDemo := by
  have h := ssh_registry_connect_disconnect regDemo connParamsDemo connEnvDemo "vps-1" true
  have hc := h.1 (Or.inl (by decide)) (fun hk => by simp [connParamsDemo] at hk) rfl
  have hd := h.2.1 { conn := 7, host := "203.0.113.5", port := 22, username := "root" }
    (by decide) rfl
  have hm := (ssh_registry_connect_disconnect regDemo connParamsDemo connEnvDemo
    "missing-id" true).2.2 (by decide)
  exact ⟨hc.1, hc.2.2.1, hc.2.2.2.2 (by decide), hd.1, hd.2.2.1, hm.1, hm.2⟩

/-- C6: over brace-disciplined templates and fields, rendering with
every placeholder key present yields output with no brace token, and a
placeholder whose key is missing is preserved verbatim — never replaced
by the empty string and never an error. -/
theorem replaceTemplateVariables_placeholders
    (template : List TemplateSeg) (fields : Fields)
    (hseg : ∀ seg ∈ template, segOk seg)
    (hval : ∀ kv ∈ fields, braceFree kv.2) :
    ((∀ k, TemplateSeg.placeholder k ∈ template → (fieldsLookup k fields).isSome) →
      braceFree (replaceTemplateVariables template fields)) ∧
    (∀ k, TemplateSeg.placeholder k ∈ template → fieldsLookup k fields = none →
      strContains (replaceTemplateVariables template fields) (placeholderText k)) := by
  constructor
  · intro hall
    unfold replaceTemplateVariables
    apply braceFree_concatAll
    intro s hs
    simp only [List.mem_map] at hs
    obtain ⟨seg, hsegmem, rfl⟩ := hs
    cases seg with
    | lit x => exact hseg _ hsegmem
    | placeholder k =>
      have hsome := hall k hsegmem
      cases hk : fieldsLookup k fields with
      | none => rw [hk] at hsome; simp at hsome
      | some v =>
        simp only [hk]
        exact hval (k, v) (fieldsLookup_mem hk)
  · intro k hk hnone
    unfold replaceTemplateVariables
    refine strContains_concatAll (s := placeholderText k) ?_ (strContains_self _)
    simp only [List.mem_map]
    exact ⟨TemplateSeg.placeholder k, hk, by simp [hnone]⟩

/-- Witness for C6 at a concrete two-placeholder template: a complete
field set renders brace-free, and dropping the gateway field preserves
its placeholder verbatim. -/
theorem replaceTemplateVariables_placeholders_witness :
    braceFree (replaceTemplateVariables demoTemplate demoFields) ∧
    strContains (replaceTemplateVariables demoTemplate demoFieldsMissing)
      (placeholderText "gateway") := by
  constructor
  · refine (replaceTemplateVariables_placeholders demoTemplate demoFields
      (by decide) (by decide)).1 ?_
    intro k hk
    simp only [demoTemplate, List.mem_cons, List.not_mem_nil, or_false,
      reduceCtorEq, false_or, TemplateSeg.placeholder.injEq] at hk
    rcases hk with rfl | rfl <;> decide
  · exact (replaceTemplateVariables_placeholders demoTemplate demoFieldsMissing
      (by decide) (by decide)).2 "gateway" (by decide) (by decide)

/-- C7: over a scripted response sequence of non-prompt chunks followed
by a final prompt line, `sendCommand` sends exactly one space per
pagination marker (the continuation writes are precisely that many
single spaces — no newline), returns the concatenation of all
non-pagination partials plus the final line, and does not time out. -/
theorem sendCommand_pagination (command : String) (body : List String)
    (final : String)
    (hbody : ∀ c ∈ body, isModePromptChunk c = false)
    (hfin₁ : isPaginationChunk final = false)
    (hfin₂ : isModePromptChunk final = true) :
    sendCommand command (body ++ [final]) =
      { continuationsSent :=
          List.replicate (body.countP (fun c => isPaginationChunk c)) " ",
        output := concatAll (body.filter (fun c => !isPaginationChunk c)) ++ final,
        timedOut := false } := by
  unfold sendCommand
  induction body with
  | nil =>
    simp [sendCommandLoop, hfin₁, hfin₂, concatAll]
  | cons c t ih =>
    have hc := hbody c (List.mem_cons_self _ _)
    have ht : ∀ x ∈ t, isModePromptChunk x = false :=
      fun x hx => hbody x (List.mem_cons_of_mem _ hx)
    by_cases hp : isPaginationChunk c = true
    · simp [sendCommandLoop, hp, hc, ih ht, List.countP_cons, List.filter_cons,
        List.replicate_succ]
    · simp only [Bool.not_eq_true] at hp
      simp [sendCommandLoop, hp, hc, ih ht, List.countP_cons, List.filter_cons,
        concatAll, String.append_assoc]

/-- Witness for C7 at a concrete scripted sequence with one pagination
marker. -/
theorem sendCommand_pagination_witness :
    sendCommand "show interfaces status" demoScript =
      { continuationsSent := [" "],
        output := "Port      Name  Status\nGi1/0/1         connected\nGi1/0/2         notconnect\nSwitch#",
        timedOut := false } := by
  have h := sendCommand_pagination "show interfaces status"
    ["Port      Name  Status\nGi1/0/1         connected\n", " --More-- ",
     "Gi1/0/2         notconnect\n"] "Switch#"
    (by intro c hc; fin_cases hc <;> decide) (by decide) (by decide)
  exact h.trans (by decide)

/-- C8: with a valid configuration but `confirmTransition` absent or
false, `console_to_ssh_transition` returns a non-error preview telling
the caller to set the flag, and executes no stage at all. -/
theorem transition_confirmation_gate (p : TransParams) (env : TransEnv)
    (hv : (validateNetworkConfig (transitionConfig p)).valid = true)
    (hc : p.confirmTransition = false) :
    (console_to_ssh_transition p env).1.isError = false ∧
    (console_to_ssh_transition p env).2 = [] ∧
    strContains (console_to_ssh_transition p env).1.text
      "To proceed, set confirmTransition=true" := by
  have hrun : console_to_ssh_transition p env =
      ({ isError := false, text := transitionPreview p }, []) := by
    unfold console_to_ssh_transition
    simp [hv, hc]
  rw [hrun]
  refine ⟨rfl, rfl, ?_⟩
  show strContains (transitionPreview p) "To proceed, set confirmTransition=true"
  unfold transitionPreview
  exact strContains_append_of_right _ (by decide)

/-- Witness for C8 at a concrete valid but unconfirmed parameter set. -/
theorem transition_confirmation_gate_witness :
    (console_to_ssh_transition pNoConfirm envAllOk).1.isError = false ∧
    (console_to_ssh_transition pNoConfirm envAllOk).2 = [] ∧
    strContains (console_to_ssh_transition pNoConfirm envAllOk).1.text
      "To proceed, set confirmTransition=true" :=
  transition_confirmation_gate pNoConfirm envAllOk (by decide) rfl

/-- C9: `switch_check_storage` and `switch_prepare_rollback` are
registered firmware handlers, yet the dispatcher routes neither — both
fall through every guard to the Unknown-tool throw, because the firmware
guard additionally requires the substring `firmware` in the tool name
(and indeed any call the firmware table receives contains it). -/
theorem firmware_tools_unreachable :
    firmwareToolNames.contains "switch_check_storage" = true ∧
    dispatchToolCall "switch_check_storage" =
      DispatchOutcome.unknownTool "switch_check_storage" ∧
    firmwareToolNames.contains "switch_prepare_rollback" = true ∧
    dispatchToolCall "switch_prepare_rollback" =
      DispatchOutcome.unknownTool "switch_prepare_rollback" ∧
    ∀ n, dispatchToolCall n = DispatchOutcome.firmware n →
      strContains n "firmware" := by
  refine ⟨by decide, by decide, by decide, by decide, ?_⟩
  intro n h
  unfold dispatchToolCall at h
  split_ifs at h with h₁ h₂ h₃ h₄ h₅ h₆ h₇ h₈
  simp only [Bool.and_eq_true] at h₆
  exact of_decide_eq_true h₆.1.2

/-- Witness for C9: a firmware tool whose name does contain `firmware`
is routed to the firmware table. -/
theorem firmware_tools_unreachable_witness :
    strContains "switch_check_firmware" "firmware" :=
  firmware_tools_unreachable.2.2.2.2 "switch_check_firmware" (by decide)

/-- C10: `switch_backup_config` emits no filesystem write on any run —
its effect trace holds only device commands — while a successful run
reports `Backup saved as: switch-config-...` and carries the retrieved
configuration only inside the returned report text. -/
theorem switch_backup_config_frame (p : BackupParams) (env : BackupEnv) :
    (∀ path contents,
      Effect.fsWrite path contents ∉ (switch_backup_config p env).2) ∧
    (env.connectionExists = true → env.versionOk = true → env.configOk = true →
      (switch_backup_config p env).1.isError = false ∧
      strContains (switch_backup_config p env).1.text
        "Backup saved as: switch-config-" ∧
      strContains (switch_backup_config p env).1.text env.configOutput) := by
  constructor
  · intro path contents
    unfold switch_backup_config
    split_ifs <;> simp
  · intro h₁ h₂ h₃
    have hrun : switch_backup_config p env =
        ({ isError := false
           text := "Configuration Backup ("
             ++ deviceTypeName (detectDeviceType env.versionOutput) ++ " - "
             ++ p.configType.getD "running"
             ++ "):\n\nBackup saved as: " ++ backupFilename p env
             ++ "\n\nConfiguration:\n" ++ env.configOutput },
         [Effect.deviceCommand "show version",
          Effect.deviceCommand (backupConfigCommand env (p.configType.getD "running"))]) := by
      unfold switch_backup_config
      simp [h₁, h₂, h₃]
    rw [hrun]
    refine ⟨rfl, ?_, ?_⟩
    · show strContains _ "Backup saved as: switch-config-"
      have heq : ("Backup saved as: switch-config-" : String) =
          "Backup saved as: " ++ "switch-config-" := by decide
      rw [heq]
      apply strContains_append_of_left
      apply strContains_append_of_left
      apply strContains_append_pair
      · exact List.IsSuffix.trans (by decide) (List.suffix_append _ _)
      · unfold backupFilename
        simp only [String.data_append, List.append_assoc]
        exact List.prefix_append _ _
    · exact strContains_append_of_right _ (strContains_self _)

/-- Witness for C10 at a concrete successful backup run. -/
theorem switch_backup_config_frame_witness :
    (Effect.fsWrite "switch-config-running.txt" "anything" ∉
      (switch_backup_config backupParamsDemo backupEnvDemo).2) ∧
    (switch_backup_config backupParamsDemo backupEnvDemo).1.isError = false ∧
    strContains (switch_backup_config backupParamsDemo backupEnvDemo).1.text
      "Backup saved as: switch-config-" := by
  have h := switch_backup_config_frame backupParamsDemo backupEnvDemo
  have hc := h.2 rfl rfl rfl
  exact ⟨h.1 "switch-config-running.txt" "anything", hc.1, hc.2.1⟩

end SSHMCP
